import Mathlib

/-!
Verification of TwangyBot (src/main.py), a minimal Discord chat bot.

The program constructs a Discord client and a Wit NLU client, registers two
event callbacks (`on_message`, `on_ready`) and hands control to the Discord
client's run loop.  We embed the two handlers as pure functions from their
inputs (the global environment of the module plus the event payload) to the
list of their observable effects, and we embed the module's top-level
statement sequence to study the startup path.
-/

namespace TwangyBot

/-- A chat-platform user, with the attributes `main.py` consumes:
display name (`user.name`), unique identifier (`user.id`) and the
platform mention token (`author.mention`). -/
structure User where
  name : String
  id : String
  mention : String
deriving DecidableEq

/-- An incoming message event, with the attributes `on_message` consumes:
`message.author`, `message.content`, `message.channel`.  Channels are
identified abstractly by a string. -/
structure Message where
  author : User
  content : String
  channel : String
deriving DecidableEq

/-- One outbound send effect: `discord_client.send_message(channel, text)`. -/
structure Send where
  channel : String
  text : String
deriving DecidableEq

/-- The Wit NLU client, `wit.Wit(WIT_TOKEN)`: it carries only its token,
since no operation is ever invoked on it. -/
structure Wit where
  token : String
deriving DecidableEq

/-- The credential constant bound at line 4 of main.py. -/
def DISCORD_TOKEN : String := "xxx"

/-- The credential constant bound at line 5 of main.py. -/
def WIT_TOKEN : String := "xxx"

/-- The module-level globals the handlers can read: the Discord client's
own user (`discord_client.user`) and the Wit client (`wit_client`).
The Wit client is optional so that the frame property "omitting it leaves
behavior unchanged" is statable. -/
structure Globals where
  discord_client_user : User
  wit_client : Option Wit
deriving DecidableEq

/-- Python str.lower applied characterwise to the underlying character
list (the trigger literal and all case distinctions in play are ASCII). -/
def pyLower (s : String) : String :=
  ⟨s.data.map Char.toLower⟩

/-- Python s.startswith(p): the characters of `p` are a prefix of the
characters of `s`. -/
def pyStarts (s p : String) : Bool :=
  p.data.isPrefixOf s.data

/-- The message handler (main.py lines 12-24), as a function from the
globals it reads and the message event to the list of outbound sends it
performs:

```
async def on_message(message):
    if message.author == discord_client.user:
        return
    content = message.content.lower()
    if not content.startswith('twangy'):
        return
    msg = 'Hello ' + message.author.mention   -- via str.format
    await discord_client.send_message(message.channel, msg)
```
-/
def on_message (g : Globals) (message : Message) : List Send :=
  if message.author = g.discord_client_user then
    []
  else if ! (pyStarts (pyLower message.content) "twangy") then
    []
  else
    [⟨message.channel, "Hello " ++ message.author.mention⟩]

/-- The ready handler (main.py lines 27-29), as a function from the globals
it reads to the list of lines it prints, in order:

```
async def on_ready():
    print('Username: ' + discord_client.user.name)
    print('Id: ' + discord_client.user.id)
```
-/
def on_ready (g : Globals) : List String :=
  ["Username: " ++ g.discord_client_user.name,
   "Id: " ++ g.discord_client_user.id]

/-- Running the message handler over a sequence of incoming message events:
each event is handled by `on_message` against the (immutable) globals, and
no state is threaded from one invocation to the next (the handler body
reads nothing mutable). -/
def run_messages (g : Globals) (msgs : List Message) : List (List Send) :=
  msgs.map (on_message g)

/-! The module-level startup sequence: main.py executes its top-level
statements in order.  A decorator line `@e.event` evaluates the name `e`
in the module's global scope before the decorated function is defined;
evaluating a name that is not bound raises `NameError` and aborts the
module.  We embed each top-level statement by the global names it binds
and the global names it reads. -/

/-- A top-level statement of the module, abstracted to name binding and
name lookup: `bind n` binds global name `n`; `decoratedDef d f` evaluates
name `d` (the decorator expression head) and, on success, binds `f`;
`callOn n` evaluates name `n` and calls a method on it. -/
inductive Stmt where
  | bind (n : String)
  | decoratedDef (d : String) (f : String)
  | callOn (n : String)
deriving DecidableEq

/-- The top-level statements of main.py, in textual order (lines 1-31). -/
def main_py_stmts : List Stmt :=
  [ .bind "discord",                      -- import discord
    .bind "Wit",                          -- from wit import Wit
    .bind "DISCORD_TOKEN",                -- line 4
    .bind "WIT_TOKEN",                    -- line 5
    .bind "discord_client",               -- line 7
    .bind "wit_client",                   -- line 9
    .decoratedDef "client" "on_message",  -- lines 11-24
    .decoratedDef "client" "on_ready",    -- lines 26-29
    .callOn "discord_client" ]            -- line 31

/-- Execute a statement list against an environment of bound global names.
Returns the final environment, or the NameError message of the first
lookup of an unbound name. -/
def execStmts (env : List String) : List Stmt → Except String (List String)
  | [] => .ok env
  | .bind n :: rest => execStmts (n :: env) rest
  | .decoratedDef d f :: rest =>
      if env.contains d then execStmts (f :: env) rest
      else .error ("NameError: name " ++ d ++ " is not defined")
  | .callOn n :: rest =>
      if env.contains n then execStmts env rest
      else .error ("NameError: name " ++ n ++ " is not defined")

/-- The result of importing main.py: run its statements from an empty
global scope. -/
def startup : Except String (List String) :=
  execStmts [] main_py_stmts

/-! Helper lemmas and test fixtures. -/

/-- A sample bot identity used as a concrete witness input. -/
def botUser : User := ⟨"TwangyBot", "471912345678901248", "<@471912345678901248>"⟩

/-- A sample non-bot author used as a concrete witness input. -/
def alice : User := ⟨"alice", "100", "<@100>"⟩

/-- A sample global environment: the bot identity together with the
constructed Wit client. -/
def testGlobals : Globals := ⟨botUser, some ⟨WIT_TOKEN⟩⟩

/-- When the author is not the bot and the lowercased content starts with
"twangy", the handler performs exactly the one send built at line 23-24. -/
theorem on_message_send_eq (g : Globals) (m : Message)
    (hA : ¬ m.author = g.discord_client_user)
    (hP : pyStarts (pyLower m.content) "twangy" = true) :
    on_message g m = [⟨m.channel, "Hello " ++ m.author.mention⟩] := by
  simp [on_message, hA, hP]

/-! Claim theorems. -/

/-- C1: for every incoming message whose lowercased text starts with
"twangy" and whose author is not the bot, the handler performs exactly one
outbound send, to the originating channel, with text "Hello " followed by
the author's mention token. -/
theorem trigger_reply_exact (g : Globals) (m : Message)
    (hP : pyStarts (pyLower m.content) "twangy" = true)
    (hA : ¬ m.author = g.discord_client_user) :
    (on_message g m).length = 1 ∧
    on_message g m = [⟨m.channel, "Hello " ++ m.author.mention⟩] := by
  have h := on_message_send_eq g m hA hP
  exact ⟨by rw [h]; rfl, h⟩

/-- Witness for C1, the spec scenario: author "alice", content
"twangy ping" yields one send to the channel with text "Hello " followed
by the mention token of alice. -/
theorem trigger_reply_exact_witness :
    (on_message testGlobals ⟨alice, "twangy ping", "general"⟩).length = 1 ∧
    on_message testGlobals ⟨alice, "twangy ping", "general"⟩ =
      [⟨"general", "Hello " ++ alice.mention⟩] :=
  trigger_reply_exact testGlobals ⟨alice, "twangy ping", "general"⟩
    (by decide) (by decide)

/-- C2: a message authored by the bot itself produces no outbound send,
regardless of its content. -/
theorem own_message_no_send (g : Globals) (m : Message)
    (hA : m.author = g.discord_client_user) :
    on_message g m = [] := by
  simp [on_message, hA]

/-- Witness for C2, the spec scenario: author is the bot itself with
content "twangy test" and no send occurs. -/
theorem own_message_no_send_witness :
    on_message testGlobals ⟨botUser, "twangy test", "general"⟩ = [] :=
  own_message_no_send testGlobals ⟨botUser, "twangy test", "general"⟩ rfl

/-- C3: a message whose lowercased text does not start with "twangy"
produces no outbound send. -/
theorem no_trigger_no_send (g : Globals) (m : Message)
    (hP : pyStarts (pyLower m.content) "twangy" = false) :
    on_message g m = [] := by
  simp [on_message, hP]

/-- Witness for C3: content "hello twangy" (trigger not at the start)
produces no send. -/
theorem no_trigger_no_send_witness :
    on_message testGlobals ⟨alice, "hello twangy", "general"⟩ = [] :=
  no_trigger_no_send testGlobals ⟨alice, "hello twangy", "general"⟩
    (by decide)

/-- C4: the trigger check is case-insensitive.  First, the handler output
is invariant under any change of the content that preserves its
lowercasing (author and channel unchanged); second, content "TWANGY hi"
triggers a reply for a non-bot author; third, content exactly "Twangy"
also triggers a reply. -/
theorem trigger_case_insensitive :
    (∀ (g : Globals) (m1 m2 : Message), m1.author = m2.author →
      m1.channel = m2.channel → pyLower m1.content = pyLower m2.content →
      on_message g m1 = on_message g m2) ∧
    (∀ (g : Globals) (m : Message), ¬ m.author = g.discord_client_user →
      m.content = "TWANGY hi" → (on_message g m).length = 1) ∧
    (∀ (g : Globals) (m : Message), ¬ m.author = g.discord_client_user →
      m.content = "Twangy" → (on_message g m).length = 1) := by
  refine ⟨?_, ?_, ?_⟩
  · intro g m1 m2 hA hC hL
    simp only [on_message, hA, hC, hL]
  · intro g m hA hX
    have hP : pyStarts (pyLower m.content) "twangy" = true := by
      rw [hX]; decide
    rw [on_message_send_eq g m hA hP]
    rfl
  · intro g m hA hX
    have hP : pyStarts (pyLower m.content) "twangy" = true := by
      rw [hX]; decide
    rw [on_message_send_eq g m hA hP]
    rfl

/-- Witness for C4: content "TwAnGy go" behaves as "twangy go" does, and
the two concrete contents "TWANGY hi" and "Twangy" each trigger a reply
for the non-bot author alice. -/
theorem trigger_case_insensitive_witness :
    on_message testGlobals ⟨alice, "TwAnGy go", "general"⟩ =
      on_message testGlobals ⟨alice, "twangy go", "general"⟩ ∧
    (on_message testGlobals ⟨alice, "TWANGY hi", "general"⟩).length = 1 ∧
    (on_message testGlobals ⟨alice, "Twangy", "general"⟩).length = 1 :=
  ⟨trigger_case_insensitive.1 testGlobals
      ⟨alice, "TwAnGy go", "general"⟩ ⟨alice, "twangy go", "general"⟩
      rfl rfl (by decide),
   trigger_case_insensitive.2.1 testGlobals
      ⟨alice, "TWANGY hi", "general"⟩ (by decide) rfl,
   trigger_case_insensitive.2.2 testGlobals
      ⟨alice, "Twangy", "general"⟩ (by decide) rfl⟩

/-- C5: the ready handler emits exactly two lines, the first containing
the bot's display name (it is "Username: " followed by the name) and the
second containing the bot's unique identifier (it is "Id: " followed by
the id), in that order, and nothing else. -/
theorem ready_two_lines (g : Globals) :
    (on_ready g).length = 2 ∧
    on_ready g = ["Username: " ++ g.discord_client_user.name,
                  "Id: " ++ g.discord_client_user.id] :=
  ⟨rfl, rfl⟩

/-- C6: the startup sequence faults.  The decorator at line 11 of main.py
reads the global name "client", but the names bound by the module up to
that point are discord, Wit, DISCORD_TOKEN, WIT_TOKEN, discord_client and
wit_client; the lookup fails, so importing the module raises NameError
before either callback is registered and before the run loop is entered. -/
theorem startup_raises_name_error :
    startup = .error "NameError: name client is not defined" := rfl

/-- C7: the Wit client is dead infrastructure.  Replacing it by any other
value, or omitting it altogether (the none case), leaves the observable
effects of both handlers unchanged on every input. -/
theorem wit_client_unused (g : Globals) (w : Option Wit) (m : Message) :
    on_message ⟨g.discord_client_user, w⟩ m = on_message g m ∧
    on_ready ⟨g.discord_client_user, w⟩ = on_ready g :=
  ⟨rfl, rfl⟩

/-- C8: the message handler is stateless and deterministic.  Over any two
event sequences, whenever the same message event occurs (at any positions,
after any histories), the handler produces the same observable effects,
namely those of `on_message` applied to that single message. -/
theorem on_message_stateless (g : Globals) (msgs1 msgs2 : List Message)
    (i j : Nat) (m : Message)
    (h1 : msgs1[i]? = some m) (h2 : msgs2[j]? = some m) :
    (run_messages g msgs1)[i]? = some (on_message g m) ∧
    (run_messages g msgs2)[j]? = some (on_message g m) := by
  constructor <;> simp [run_messages, List.getElem?_map, h1, h2]

/-- Witness for C8: the same message handled first in one sequence and
second in another (after a different preceding message) produces identical
effects in both runs. -/
theorem on_message_stateless_witness :
    (run_messages testGlobals [⟨alice, "twangy a", "c"⟩])[0]? =
      some (on_message testGlobals ⟨alice, "twangy a", "c"⟩) ∧
    (run_messages testGlobals
        [⟨alice, "hi", "c"⟩, ⟨alice, "twangy a", "c"⟩])[1]? =
      some (on_message testGlobals ⟨alice, "twangy a", "c"⟩) :=
  on_message_stateless testGlobals
    [⟨alice, "twangy a", "c"⟩]
    [⟨alice, "hi", "c"⟩, ⟨alice, "twangy a", "c"⟩]
    0 1 ⟨alice, "twangy a", "c"⟩ rfl rfl

/-- C9: the trigger check is a bare prefix test with no word-boundary
requirement: any non-bot message whose lowercased content starts with
"twangy", even as part of a longer word, gets the reply. -/
theorem bare_prefix_trigger (g : Globals) (m : Message)
    (hA : ¬ m.author = g.discord_client_user)
    (hP : pyStarts (pyLower m.content) "twangy" = true) :
    on_message g m = [⟨m.channel, "Hello " ++ m.author.mention⟩] :=
  on_message_send_eq g m hA hP

/-- Witness for C9: content "twangyfoo" (trigger embedded in a longer
word) still gets the reply. -/
theorem bare_prefix_trigger_witness :
    on_message testGlobals ⟨alice, "twangyfoo", "general"⟩ =
      [⟨"general", "Hello " ++ alice.mention⟩] :=
  bare_prefix_trigger testGlobals ⟨alice, "twangyfoo", "general"⟩
    (by decide) (by decide)

/-- C10: a single invocation of the message handler performs at most one
outbound send, on every execution path. -/
theorem at_most_one_send (g : Globals) (m : Message) :
    (on_message g m).length ≤ 1 := by
  unfold on_message
  split
  · simp
  · split <;> simp

end TwangyBot
